import Mathlib

/-!
Shallow embedding of the response-validation layer of the casper-node client
(`src/client/lib/validation.rs`) and the small-network configuration defaults
(`src/node/src/components/small_network/config.rs`).

External collaborators that live in the repository but outside the embedded
files (the `bytesrepr` codec, `serde_json` decoding of repository types, the
execution-engine Merkle chain verifier, `U512::from_dec_str`, `Block::verify`)
are either taken as parameters (collected in environment structures) or
modelled from the specification, as indicated by each doc comment.
-/

namespace Casper

/-- JSON value, mirroring the shape of a dynamic JSON document
(`serde_json::Value`): null, boolean, number, string, array, object. -/
inductive Json where
  | null : Json
  | bool (b : Bool) : Json
  | num (n : Int) : Json
  | str (s : String) : Json
  | arr (elems : List Json) : Json
  | obj (fields : List (String × Json)) : Json

/-- Looks a key up in a JSON object's field list (`serde_json::Map::get`). -/
def objGet (fields : List (String × Json)) (k : String) : Option Json :=
  (fields.find? (fun p => p.1 == k)).map (fun p => p.2)

/-- Mirrors `serde_json::Value::as_object`. -/
def Json.as_object : Json → Option (List (String × Json))
  | .obj fields => some fields
  | _ => none

/-- Mirrors `serde_json::Value::as_str`. -/
def Json.as_str : Json → Option String
  | .str s => some s
  | _ => none

/-- Mirrors `serde_json::Value::get` with a string index: a field lookup on
objects, `None` on every other variant. -/
def Json.get : Json → String → Option Json
  | .obj fields, k => objGet fields k
  | _, _ => none

/-- A JSON-RPC message (`jsonrpc_lite::JsonRpc`): only a success response
carries a result object. -/
inductive JsonRpc where
  | success (result : Json) : JsonRpc
  | rpcError : JsonRpc
  | request : JsonRpc
  | notification : JsonRpc

/-- Mirrors `jsonrpc_lite::JsonRpc::get_result`: the result object of a
success response, `None` for every other message kind. -/
def JsonRpc.get_result : JsonRpc → Option Json
  | .success result => some result
  | _ => none

/-- A single hexadecimal digit, lower- or upper-case. -/
def hexDigitVal (c : Char) : Option Nat :=
  if ('0' ≤ c ∧ c ≤ '9') then some (c.toNat - '0'.toNat)
  else if ('a' ≤ c ∧ c ≤ 'f') then some (c.toNat - 'a'.toNat + 10)
  else if ('A' ≤ c ∧ c ≤ 'F') then some (c.toNat - 'A'.toNat + 10)
  else none

/-- Decodes a list of hex characters two at a time into bytes; fails on an
odd-length list or a non-hex character. -/
def hexPairs : List Char → Option (List Nat)
  | [] => some []
  | [_] => none
  | c1 :: c2 :: rest => do
    let hi ← hexDigitVal c1
    let lo ← hexDigitVal c2
    let tail ← hexPairs rest
    pure ((hi * 16 + lo) :: tail)

/-- Mirrors `hex::decode` on a string: bytes on success, failure on odd
length or a character outside `[0-9a-fA-F]`. -/
def hexDecode (s : String) : Option (List Nat) :=
  hexPairs s.data

/-- An opaque fixed-size digest (`casper_node::crypto::hash::Digest`),
abstracted to its numeric identity: the validators only pass it through and
compare it. -/
structure Digest where
  val : Nat
deriving DecidableEq

/-- An opaque global-state key (`casper_types::Key`), abstracted to its
identity: the validators only pass it through. -/
structure Key where
  val : Nat
deriving DecidableEq

/-- An opaque ledger payload (`StoredValue`) in its canonical form,
abstracted to its logical identity. -/
structure StoredValue where
  val : Nat
deriving DecidableEq

/-- The JSON-compatible representation of a ledger payload
(`json_compatibility::StoredValue`), abstracted to its logical identity. -/
structure JsonStoredValue where
  val : Nat
deriving DecidableEq

/-- A 512-bit unsigned integer (`casper_types::U512`), abstracted to a
natural number. -/
structure U512 where
  val : Nat
deriving DecidableEq

/-- An error of the canonical byte codec (`bytesrepr::Error`), abstracted to
an error code. -/
structure BytesreprError where
  code : Nat
deriving DecidableEq

/-- A `serde_json::Error`, abstracted to an error code. -/
structure SerdeError where
  code : Nat
deriving DecidableEq

/-- A Merkle-chain verification error from the execution engine
(`core::ValidationError`), abstracted to an error code. -/
structure ValidationError where
  code : Nat
deriving DecidableEq

/-- Modelled from the spec: a block self-consistency failure
(`BlockValidationError`) — the declared hash does not match the recomputed
header hash, or the header's body-hash field does not match the body. -/
inductive BlockValidationError where
  | unexpectedBodyHash : BlockValidationError
  | unexpectedBlockHash : BlockValidationError
deriving DecidableEq

/-- The error of converting a canonical `StoredValue` to its JSON-compatible
form (`json_compatibility::StoredValue::try_from`), abstracted to a code. -/
structure TryFromError where
  code : Nat
deriving DecidableEq

/-- Modelled from the spec: one proof step — a (node, consumed-key-segment)
pair produced while descending the trie; its internal structure is opaque to
the validators. -/
structure TrieMerkleProofStep where
  node : Nat
  key_segment : List Nat
deriving DecidableEq

/-- Modelled from the spec: a trie Merkle proof
(`TrieMerkleProof<Key, StoredValue>`) — the key being proven, the value
carried at the leaf (returned by `TrieMerkleProof::value`), and the ordered
root-to-leaf proof steps. -/
structure TrieMerkleProof where
  key : Key
  value : StoredValue
  proof_steps : List TrieMerkleProofStep
deriving DecidableEq

/-- Error that can be returned when validating
(`ValidateResponseError` in `src/client/lib/validation.rs`). -/
inductive ValidateResponseError where
  | BytesRepr (e : BytesreprError) : ValidateResponseError
  | Serde (e : SerdeError) : ValidateResponseError
  | ValidateResponseFailedToParse : ValidateResponseError
  | ValidationError (e : ValidationError) : ValidateResponseError
  | BlockValidationError (e : BlockValidationError) : ValidateResponseError
  | SerializedValueNotContainedInProof : ValidateResponseError
  | NoBlockInResponse : ValidateResponseError
  | UnexpectedBlockHash : ValidateResponseError
  | UnexpectedBlockHeight : ValidateResponseError
deriving DecidableEq

/-- The `balance_value` result field name. -/
def GET_ITEM_RESULT_BALANCE_VALUE : String := "balance_value"

/-- The `stored_value` result field name. -/
def GET_ITEM_RESULT_STORED_VALUE : String := "stored_value"

/-- The `merkle_proof` result field name. -/
def GET_ITEM_RESULT_MERKLE_PROOF : String := "merkle_proof"

/-- The `block` result field name used by `validate_get_block_response`. -/
def blockFieldName : String := "block"

/-- Collaborators of `validate_query_response` that live outside the embedded
file: the byte codec for a proof sequence (`bytesrepr::deserialize`), JSON
decoding of a JSON-compatible stored value (`serde_json::from_value`),
conversion of a canonical stored value to its JSON-compatible form
(`json_compatibility::StoredValue::try_from`), and the execution engine's
Merkle chain verifier (`core::validate_query_proof`). -/
structure QueryEnv where
  deserializeProofs : List Nat → Except BytesreprError (List TrieMerkleProof)
  fromValueStoredValue : Json → Except SerdeError JsonStoredValue
  tryFromStoredValue : StoredValue → Except TryFromError JsonStoredValue
  validateQueryProof :
    Digest → List TrieMerkleProof → Key → List String → StoredValue →
      Except ValidationError Unit

/-- Embedding of `validate_query_response`
(`src/client/lib/validation.rs:73-131`), with each Rust `?` / `ok_or`
early-return written as an explicit match. -/
def validate_query_response (env : QueryEnv) (response : JsonRpc)
    (state_root_hash : Digest) (key : Key) (path : List String) :
    Except ValidateResponseError Unit :=
  match response.get_result with
  | none => Except.error ValidateResponseError.ValidateResponseFailedToParse
  | some value =>
    match value.as_object with
    | none => Except.error ValidateResponseError.ValidateResponseFailedToParse
    | some object =>
      match objGet object GET_ITEM_RESULT_MERKLE_PROOF with
      | none => Except.error ValidateResponseError.ValidateResponseFailedToParse
      | some proof =>
        match proof.as_str with
        | none => Except.error ValidateResponseError.ValidateResponseFailedToParse
        | some proof_str =>
          match hexDecode proof_str with
          | none => Except.error ValidateResponseError.ValidateResponseFailedToParse
          | some proof_bytes =>
            match env.deserializeProofs proof_bytes with
            | Except.error e => Except.error (ValidateResponseError.BytesRepr e)
            | Except.ok proofs =>
              match proofs.getLast? with
              | none =>
                Except.error ValidateResponseError.ValidateResponseFailedToParse
              | some last_proof =>
                match objGet object GET_ITEM_RESULT_STORED_VALUE with
                | none =>
                  Except.error ValidateResponseError.ValidateResponseFailedToParse
                | some stored_value_json =>
                  match env.fromValueStoredValue stored_value_json with
                  | Except.error e => Except.error (ValidateResponseError.Serde e)
                  | Except.ok value =>
                    match env.tryFromStoredValue last_proof.value with
                    | Except.ok json_proof_value =>
                      if json_proof_value = value then
                        match
                          env.validateQueryProof state_root_hash proofs key path
                            last_proof.value with
                        | Except.ok _ => Except.ok ()
                        | Except.error e =>
                          Except.error (ValidateResponseError.ValidationError e)
                      else
                        Except.error
                          ValidateResponseError.SerializedValueNotContainedInProof
                    | Except.error _ =>
                      Except.error
                        ValidateResponseError.SerializedValueNotContainedInProof

/-- Collaborators of `validate_get_balance_response` that live outside the
embedded file: the byte codec for the bundled (purse proof, balance proof)
pair, the decimal parser `U512::from_dec_str`, and the execution engine's
`core::validate_balance_proof`. -/
structure BalanceEnv where
  deserializeProofPair :
    List Nat → Except BytesreprError (TrieMerkleProof × TrieMerkleProof)
  fromDecStr : String → Option U512
  validateBalanceProof :
    Digest → TrieMerkleProof → TrieMerkleProof → Key → U512 →
      Except ValidationError Unit

/-- Embedding of `validate_get_balance_response`
(`src/client/lib/validation.rs:133-180`). -/
def validate_get_balance_response (env : BalanceEnv) (response : JsonRpc)
    (state_root_hash : Digest) (key : Key) :
    Except ValidateResponseError Unit :=
  match response.get_result with
  | none => Except.error ValidateResponseError.ValidateResponseFailedToParse
  | some value =>
    match value.as_object with
    | none => Except.error ValidateResponseError.ValidateResponseFailedToParse
    | some object =>
      match objGet object GET_ITEM_RESULT_MERKLE_PROOF with
      | none => Except.error ValidateResponseError.ValidateResponseFailedToParse
      | some proof =>
        match proof.as_str with
        | none => Except.error ValidateResponseError.ValidateResponseFailedToParse
        | some proof_str =>
          match hexDecode proof_str with
          | none => Except.error ValidateResponseError.ValidateResponseFailedToParse
          | some proof_bytes =>
            match env.deserializeProofPair proof_bytes with
            | Except.error e => Except.error (ValidateResponseError.BytesRepr e)
            | Except.ok (purse_proof, balance_proof) =>
              match objGet object GET_ITEM_RESULT_BALANCE_VALUE with
              | none =>
                Except.error ValidateResponseError.ValidateResponseFailedToParse
              | some balance_json =>
                match balance_json.as_str with
                | none =>
                  Except.error ValidateResponseError.ValidateResponseFailedToParse
                | some value_str =>
                  match env.fromDecStr value_str with
                  | none =>
                    Except.error ValidateResponseError.ValidateResponseFailedToParse
                  | some balance =>
                    match
                      env.validateBalanceProof state_root_hash purse_proof
                        balance_proof key balance with
                    | Except.ok _ => Except.ok ()
                    | Except.error e =>
                      Except.error (ValidateResponseError.ValidationError e)

/-- A block hash (`casper_node::types::BlockHash`), abstracted to its
numeric identity. -/
structure BlockHash where
  val : Nat
deriving DecidableEq

/-- Modelled from the spec: a block header — previous hash, state root hash,
a field referencing the body hash, height, timestamp, era id, protocol
version. -/
structure BlockHeader where
  parent_hash : Digest
  state_root_hash : Digest
  body_hash : Digest
  height : Nat
  timestamp : Nat
  era_id : Nat
  protocol_version : Nat
deriving DecidableEq

/-- Modelled from the spec: a block body — deploy hashes and a proposer. -/
structure BlockBody where
  deploy_hashes : List Digest
  proposer : Nat
deriving DecidableEq

/-- Modelled from the spec: a block — a header, a body, and a self-declared
hash, deserialized from untrusted JSON and never mutated after validation. -/
structure Block where
  hash : BlockHash
  header : BlockHeader
  body : BlockBody
deriving DecidableEq

/-- The block's height, read from its header (`Block::height`). -/
def Block.height (b : Block) : Nat :=
  b.header.height

/-- Modelled from the spec: a deterministic combination of two numbers, used
as the canonical hash of the modelled block parts. -/
def natPair (a b : Nat) : Nat :=
  (a + b) * (a + b + 1) / 2 + b

/-- Modelled from the spec: the deterministic hash of a block body. -/
def hashBlockBody (b : BlockBody) : Digest :=
  ⟨natPair (b.deploy_hashes.foldl (fun acc d => natPair acc d.val) 0) b.proposer⟩

/-- Modelled from the spec: the deterministic hash of a block header over all
of its fields. -/
def hashBlockHeader (h : BlockHeader) : BlockHash :=
  ⟨[h.parent_hash.val, h.state_root_hash.val, h.body_hash.val, h.height,
      h.timestamp, h.era_id, h.protocol_version].foldl natPair 0⟩

/-- Modelled from the spec: `Block::verify` — the block's self-consistency
check. It recomputes the body hash and requires it to equal the header's
body-hash field, then recomputes the header hash and requires it to equal the
declared hash. -/
def Block.verify (b : Block) : Except BlockValidationError Unit :=
  if b.header.body_hash ≠ hashBlockBody b.body then
    Except.error BlockValidationError.unexpectedBodyHash
  else if b.hash ≠ hashBlockHeader b.header then
    Except.error BlockValidationError.unexpectedBlockHash
  else
    Except.ok ()

/-- A caller-supplied block expectation
(`casper_node::rpcs::chain::BlockIdentifier`): a specific hash or a specific
height. -/
inductive BlockIdentifier where
  | Hash (h : BlockHash) : BlockIdentifier
  | Height (n : Nat) : BlockIdentifier
deriving DecidableEq

/-- Collaborator of `validate_get_block_response` that lives outside the
embedded file: `serde_json::from_value::<Option<Block>>`, which decodes JSON
`null` to an explicit absence. -/
structure BlockEnv where
  deserializeOptBlock : Json → Except SerdeError (Option Block)

/-- Embedding of `validate_get_block_response`
(`src/client/lib/validation.rs:182-215`). -/
def validate_get_block_response (env : BlockEnv) (response : JsonRpc)
    (maybe_block_identifier : Option BlockIdentifier) :
    Except ValidateResponseError Unit :=
  match (response.get_result).bind (fun value => value.get blockFieldName) with
  | none => Except.error ValidateResponseError.NoBlockInResponse
  | some block_value =>
    match env.deserializeOptBlock block_value with
    | Except.error e => Except.error (ValidateResponseError.Serde e)
    | Except.ok none => Except.ok ()
    | Except.ok (some block) =>
      match block.verify with
      | Except.error e =>
        Except.error (ValidateResponseError.BlockValidationError e)
      | Except.ok _ =>
        match maybe_block_identifier with
        | some (BlockIdentifier.Hash block_hash) =>
          if block_hash ≠ block.hash then
            Except.error ValidateResponseError.UnexpectedBlockHash
          else
            Except.ok ()
        | some (BlockIdentifier.Height height) =>
          if height ≠ block.height then
            Except.error ValidateResponseError.UnexpectedBlockHeight
          else
            Except.ok ()
        | none => Except.ok ()

/-- An IPv4 address (`std::net::Ipv4Addr`), four octets. -/
structure Ipv4Addr where
  a : Nat
  b : Nat
  c : Nat
  d : Nat
deriving DecidableEq

/-- An IP address (`std::net::IpAddr`), IPv4 or IPv6. -/
inductive IpAddr where
  | V4 (addr : Ipv4Addr) : IpAddr
  | V6 (segments : List Nat) : IpAddr
deriving DecidableEq

/-- `Ipv4Addr::LOCALHOST`, 127.0.0.1. -/
def Ipv4Addr.LOCALHOST : Ipv4Addr :=
  ⟨127, 0, 0, 1⟩

/-- A socket address (`std::net::SocketAddr`): an IP address and a port. -/
structure SocketAddr where
  ip : IpAddr
  port : Nat
deriving DecidableEq

/-- A filesystem path (`std::path::PathBuf`), abstracted to a string. -/
structure PathBuf where
  path : String
deriving DecidableEq

/-- Small network configuration
(`src/node/src/components/small_network/config.rs`). -/
structure Config where
  bind_interface : IpAddr
  bind_port : Nat
  root_addr : SocketAddr
  cert_path : Option PathBuf
  secret_key_path : Option PathBuf
  max_outgoing_retries : Option Nat
  outgoing_retry_delay_millis : Nat
deriving DecidableEq

/-- Modelled from the spec: the process-wide constant
`ROOT_VALIDATOR_LISTENING_PORT` declared at the node crate root (outside the
embedded files); its numeric value is not given by the spec, so it is fixed
here arbitrarily — no claim depends on the value, only on the default
configuration being derived from it. -/
def ROOT_VALIDATOR_LISTENING_PORT : Nat :=
  34553

/-- Embedding of `Config::default_on_port`
(`src/node/src/components/small_network/config.rs:40-53`). -/
def Config.default_on_port (port : Nat) : Config :=
  { bind_interface := IpAddr.V4 Ipv4Addr.LOCALHOST
    bind_port := 0
    root_addr := { ip := IpAddr.V4 Ipv4Addr.LOCALHOST, port := port }
    cert_path := none
    secret_key_path := none
    max_outgoing_retries := some 360
    outgoing_retry_delay_millis := 10000 }

/-- Embedding of `impl Default for Config`
(`src/node/src/components/small_network/config.rs:55-59`). -/
def Config.default : Config :=
  Config.default_on_port ROOT_VALIDATOR_LISTENING_PORT

/-! Concrete sample inputs used to instantiate the theorems below. -/

/-- The all-zero digest, used as a sample trusted root. -/
def zeroDigest : Digest :=
  ⟨0⟩

/-- A sample queried key. -/
def zeroKey : Key :=
  ⟨0⟩

/-- A well-formed hex string encoding the single byte `0x00`. -/
def hexByteStr : String :=
  "00"

/-- A string that is not valid hexadecimal. -/
def badHexStr : String :=
  "zz"

/-- A sample proof whose leaf carries the stored value `5`. -/
def sampleProof : TrieMerkleProof :=
  ⟨zeroKey, ⟨5⟩, []⟩

/-- A success response carrying only a `merkle_proof` field with valid hex. -/
def queryRespProofOnly : JsonRpc :=
  JsonRpc.success (Json.obj [(GET_ITEM_RESULT_MERKLE_PROOF, Json.str hexByteStr)])

/-- A success response whose `merkle_proof` field is not valid hex. -/
def queryRespBadHex : JsonRpc :=
  JsonRpc.success (Json.obj [(GET_ITEM_RESULT_MERKLE_PROOF, Json.str badHexStr)])

/-- A success response carrying a valid-hex `merkle_proof` field and a
`stored_value` field. -/
def queryRespFull : JsonRpc :=
  JsonRpc.success
    (Json.obj
      [(GET_ITEM_RESULT_MERKLE_PROOF, Json.str hexByteStr),
        (GET_ITEM_RESULT_STORED_VALUE, Json.null)])

/-- Query environment whose proof decodes to a leaf value converting to the
JSON form `2` while the response's `stored_value` field decodes to `1`:
a genuine cross-check mismatch with a chain verifier that accepts. -/
def queryEnvMismatch : QueryEnv :=
  { deserializeProofs := fun _ => Except.ok [sampleProof]
    fromValueStoredValue := fun _ => Except.ok ⟨1⟩
    tryFromStoredValue := fun _ => Except.ok ⟨2⟩
    validateQueryProof := fun _ _ _ _ _ => Except.ok () }

/-- Query environment whose byte codec always fails structurally. -/
def queryEnvDecodeFail : QueryEnv :=
  { deserializeProofs := fun _ => Except.error ⟨7⟩
    fromValueStoredValue := fun _ => Except.ok ⟨0⟩
    tryFromStoredValue := fun _ => Except.ok ⟨0⟩
    validateQueryProof := fun _ _ _ _ _ => Except.ok () }

/-- Query environment whose byte codec decodes to an empty proof sequence. -/
def queryEnvEmptyProofs : QueryEnv :=
  { deserializeProofs := fun _ => Except.ok []
    fromValueStoredValue := fun _ => Except.ok ⟨0⟩
    tryFromStoredValue := fun _ => Except.ok ⟨0⟩
    validateQueryProof := fun _ _ _ _ _ => Except.ok () }

/-- A second sample proof, used as the balance hop of a proof pair. -/
def sampleProofB : TrieMerkleProof :=
  ⟨zeroKey, ⟨6⟩, []⟩

/-- Balance environment whose proof-pair codec succeeds and whose decimal
parser rejects every string. -/
def balanceEnvBadDec : BalanceEnv :=
  { deserializeProofPair := fun _ => Except.ok (sampleProof, sampleProofB)
    fromDecStr := fun _ => none
    validateBalanceProof := fun _ _ _ _ _ => Except.ok () }

/-- A balance response with a valid-hex proof field and no `balance_value`
field. -/
def balanceRespNoValue : JsonRpc :=
  JsonRpc.success (Json.obj [(GET_ITEM_RESULT_MERKLE_PROOF, Json.str hexByteStr)])

/-- A balance response whose `balance_value` field is a number, not a
string. -/
def balanceRespNonString : JsonRpc :=
  JsonRpc.success
    (Json.obj
      [(GET_ITEM_RESULT_MERKLE_PROOF, Json.str hexByteStr),
        (GET_ITEM_RESULT_BALANCE_VALUE, Json.num 3)])

/-- A balance response whose `balance_value` field is a (non-decimal)
string. -/
def balanceRespBadDecimal : JsonRpc :=
  JsonRpc.success
    (Json.obj
      [(GET_ITEM_RESULT_MERKLE_PROOF, Json.str hexByteStr),
        (GET_ITEM_RESULT_BALANCE_VALUE, Json.str badHexStr)])

/-- The body of the sample block. -/
def sampleBody : BlockBody :=
  ⟨[], 0⟩

/-- The header of the sample block: height 10, body-hash field set to the
recomputed body hash. -/
def sampleHeader : BlockHeader :=
  ⟨zeroDigest, zeroDigest, hashBlockBody sampleBody, 10, 0, 0, 0⟩

/-- A self-consistent sample block of height 10: its declared hash is the
recomputed header hash. -/
def sampleBlock : Block :=
  ⟨hashBlockHeader sampleHeader, sampleHeader, sampleBody⟩

/-- Block environment decoding JSON null to an explicit absence and
everything else to the sample block, as `serde_json` would for
`Option<Block>`. -/
def blockEnvSample : BlockEnv :=
  ⟨fun j =>
    match j with
    | Json.null => Except.ok none
    | _ => Except.ok (some sampleBlock)⟩

/-- A block response whose `block` field holds (an encoding of) the sample
block. -/
def blockRespSample : JsonRpc :=
  JsonRpc.success (Json.obj [(blockFieldName, Json.bool true)])

/-- A block response whose `block` field is explicitly null. -/
def blockRespNull : JsonRpc :=
  JsonRpc.success (Json.obj [(blockFieldName, Json.null)])

/-- A block response whose result object has no `block` field. -/
def blockRespMissingField : JsonRpc :=
  JsonRpc.success (Json.obj [])

/-- A response with no result object at all (an RPC-level error reply). -/
def respNoResult : JsonRpc :=
  JsonRpc.rpcError

end Casper

namespace Casper

/-- C9: `Config::default()` equals
`Config::default_on_port(ROOT_VALIDATOR_LISTENING_PORT)`, and for every port
`p`, `default_on_port p` binds the localhost interface on port 0, points the
root address at (localhost, p), sets no certificate or secret-key paths,
allows 360 outgoing retries, and delays 10000 milliseconds between retries. -/
theorem config_default_values :
    Config.default = Config.default_on_port ROOT_VALIDATOR_LISTENING_PORT ∧
    ∀ p : Nat, Config.default_on_port p =
      { bind_interface := IpAddr.V4 Ipv4Addr.LOCALHOST
        bind_port := 0
        root_addr := { ip := IpAddr.V4 Ipv4Addr.LOCALHOST, port := p }
        cert_path := none
        secret_key_path := none
        max_outgoing_retries := some 360
        outgoing_retry_delay_millis := 10000 } :=
  ⟨rfl, fun _ => rfl⟩

/-- C10: a response whose envelope has no result object at all makes
`validate_get_block_response` return `NoBlockInResponse` — the same kind as
a missing `block` field, and not the generic parse-failure kind. -/
theorem no_result_yields_no_block_in_response (env : BlockEnv)
    (response : JsonRpc) (ident : Option BlockIdentifier)
    (hr : response.get_result = none) :
    validate_get_block_response env response ident =
      Except.error ValidateResponseError.NoBlockInResponse ∧
    ValidateResponseError.NoBlockInResponse ≠
      ValidateResponseError.ValidateResponseFailedToParse := by
  refine ⟨?_, by decide⟩
  simp only [validate_get_block_response, hr, Option.none_bind]

/-- C10 witness: the RPC-error reply has no result object and is rejected
with `NoBlockInResponse`. -/
theorem no_result_yields_no_block_in_response_witness :
    validate_get_block_response blockEnvSample respNoResult none =
      Except.error ValidateResponseError.NoBlockInResponse ∧
    ValidateResponseError.NoBlockInResponse ≠
      ValidateResponseError.ValidateResponseFailedToParse :=
  no_result_yields_no_block_in_response blockEnvSample respNoResult none rfl

/-- C6: a response whose result object lacks a `block` field makes
`validate_get_block_response` return the distinct `NoBlockInResponse` error,
distinguishable from the generic parse-failure kind. -/
theorem missing_block_field_yields_no_block_in_response (env : BlockEnv)
    (response : JsonRpc) (ident : Option BlockIdentifier) (r : Json)
    (hr : response.get_result = some r)
    (hnb : r.get blockFieldName = none) :
    validate_get_block_response env response ident =
      Except.error ValidateResponseError.NoBlockInResponse ∧
    ValidateResponseError.NoBlockInResponse ≠
      ValidateResponseError.ValidateResponseFailedToParse := by
  refine ⟨?_, by decide⟩
  simp only [validate_get_block_response, hr, Option.some_bind, hnb]

/-- C6 witness: a result object with no fields is rejected with
`NoBlockInResponse`. -/
theorem missing_block_field_yields_no_block_in_response_witness :
    validate_get_block_response blockEnvSample blockRespMissingField none =
      Except.error ValidateResponseError.NoBlockInResponse ∧
    ValidateResponseError.NoBlockInResponse ≠
      ValidateResponseError.ValidateResponseFailedToParse :=
  missing_block_field_yields_no_block_in_response blockEnvSample
    blockRespMissingField none (Json.obj []) rfl rfl

/-- C5: a response whose `block` field is present and is JSON null — which
the `Option<Block>` decoder reads as an explicit absence — is accepted by
`validate_get_block_response`, whatever block identifier the caller
supplied. -/
theorem null_block_accepted (env : BlockEnv) (response : JsonRpc)
    (ident : Option BlockIdentifier)
    (hbv : (response.get_result).bind (fun value => value.get blockFieldName) =
      some Json.null)
    (hdes : env.deserializeOptBlock Json.null = Except.ok none) :
    validate_get_block_response env response ident = Except.ok () := by
  simp only [validate_get_block_response, hbv, hdes]

/-- C5 witness: the null-block response is accepted under a height-pinned
request. -/
theorem null_block_accepted_witness :
    validate_get_block_response blockEnvSample blockRespNull
      (some (BlockIdentifier.Height 3)) = Except.ok () :=
  null_block_accepted blockEnvSample blockRespNull
    (some (BlockIdentifier.Height 3)) rfl rfl

/-- C2: for a self-consistent block carried in the response,
`validate_get_block_response` rejects a mismatched requested height with
`UnexpectedBlockHeight`, rejects a mismatched requested hash with
`UnexpectedBlockHash`, accepts the matching hash, and accepts
unconditionally when no identifier was supplied. -/
theorem block_identity_checks (env : BlockEnv) (response : JsonRpc)
    (bv : Json) (block : Block)
    (hbv : (response.get_result).bind (fun value => value.get blockFieldName) =
      some bv)
    (hdes : env.deserializeOptBlock bv = Except.ok (some block))
    (hver : block.verify = Except.ok ()) :
    (∀ h : Nat, h ≠ block.height →
      validate_get_block_response env response
          (some (BlockIdentifier.Height h)) =
        Except.error ValidateResponseError.UnexpectedBlockHeight) ∧
    (∀ H : BlockHash, H ≠ block.hash →
      validate_get_block_response env response
          (some (BlockIdentifier.Hash H)) =
        Except.error ValidateResponseError.UnexpectedBlockHash) ∧
    validate_get_block_response env response
      (some (BlockIdentifier.Hash block.hash)) = Except.ok () ∧
    validate_get_block_response env response none = Except.ok () := by
  refine ⟨?_, ?_, ?_, ?_⟩
  · intro h hne
    simp only [validate_get_block_response, hbv, hdes, hver]
    exact if_pos hne
  · intro H hne
    simp only [validate_get_block_response, hbv, hdes, hver]
    exact if_pos hne
  · simp only [validate_get_block_response, hbv, hdes, hver]
    exact if_neg (fun hc => hc rfl)
  · simp only [validate_get_block_response, hbv, hdes, hver]

/-- C2 witness: the sample self-consistent block of height 10 is rejected
under requested height 11 and under a wrong requested hash, and accepted
under its own hash and under no identifier. -/
theorem block_identity_checks_witness :
    validate_get_block_response blockEnvSample blockRespSample
        (some (BlockIdentifier.Height 11)) =
      Except.error ValidateResponseError.UnexpectedBlockHeight ∧
    validate_get_block_response blockEnvSample blockRespSample
        (some (BlockIdentifier.Hash ⟨0⟩)) =
      Except.error ValidateResponseError.UnexpectedBlockHash ∧
    validate_get_block_response blockEnvSample blockRespSample
      (some (BlockIdentifier.Hash sampleBlock.hash)) = Except.ok () ∧
    validate_get_block_response blockEnvSample blockRespSample none =
      Except.ok () :=
  have thm := block_identity_checks blockEnvSample blockRespSample
    (Json.bool true) sampleBlock rfl rfl rfl
  ⟨thm.1 11 (by decide), thm.2.1 ⟨0⟩ (by decide), thm.2.2.1, thm.2.2.2⟩

/-- C1: when the response's `stored_value` field decodes to a logical value
different from the JSON-compatible form of the value carried by the proof's
leaf-most step, `validate_query_response` rejects with
`SerializedValueNotContainedInProof` — whatever the chain verifier would
have said, since the cross-check runs before it. -/
theorem stored_value_mismatch_rejected (env : QueryEnv) (response : JsonRpc)
    (state_root_hash : Digest) (key : Key) (path : List String)
    (r : Json) (object : List (String × Json)) (pj : Json) (s : String)
    (bytes : List Nat) (proofs : List TrieMerkleProof)
    (last_proof : TrieMerkleProof) (svj : Json) (v jv : JsonStoredValue)
    (hr : response.get_result = some r)
    (hobj : r.as_object = some object)
    (hp : objGet object GET_ITEM_RESULT_MERKLE_PROOF = some pj)
    (hs : pj.as_str = some s)
    (hhex : hexDecode s = some bytes)
    (hdes : env.deserializeProofs bytes = Except.ok proofs)
    (hlast : proofs.getLast? = some last_proof)
    (hsv : objGet object GET_ITEM_RESULT_STORED_VALUE = some svj)
    (hv : env.fromValueStoredValue svj = Except.ok v)
    (hjv : env.tryFromStoredValue last_proof.value = Except.ok jv)
    (hne : jv ≠ v) :
    validate_query_response env response state_root_hash key path =
      Except.error ValidateResponseError.SerializedValueNotContainedInProof := by
  simp only [validate_query_response, hr, hobj, hp, hs, hhex, hdes, hlast, hsv,
    hv, hjv]
  exact if_neg hne

/-- C1 witness: a response whose `stored_value` decodes to `1` while the
proof's leaf converts to `2` is rejected with
`SerializedValueNotContainedInProof`, even though the environment's chain
verifier accepts everything. -/
theorem stored_value_mismatch_rejected_witness :
    validate_query_response queryEnvMismatch queryRespFull zeroDigest zeroKey
      [] =
      Except.error ValidateResponseError.SerializedValueNotContainedInProof :=
  stored_value_mismatch_rejected queryEnvMismatch queryRespFull zeroDigest
    zeroKey [] (Json.obj
      [(GET_ITEM_RESULT_MERKLE_PROOF, Json.str hexByteStr),
        (GET_ITEM_RESULT_STORED_VALUE, Json.null)])
    [(GET_ITEM_RESULT_MERKLE_PROOF, Json.str hexByteStr),
      (GET_ITEM_RESULT_STORED_VALUE, Json.null)]
    (Json.str hexByteStr) hexByteStr [0] [sampleProof] sampleProof Json.null
    ⟨1⟩ ⟨2⟩ rfl rfl rfl rfl rfl rfl rfl rfl rfl rfl (by decide)

/-- C3 counterexample: a response whose `merkle_proof` field hex-decodes but
fails the structural byte decode is rejected with the `BytesRepr` kind, not
with `ValidateResponseFailedToParse` — so not every merkle-proof decoding
failure collapses to the single parse-failure kind. -/
theorem proof_decode_failure_not_collapsed :
    validate_query_response queryEnvDecodeFail queryRespProofOnly zeroDigest
      zeroKey [] =
      Except.error (ValidateResponseError.BytesRepr ⟨7⟩) ∧
    ValidateResponseError.BytesRepr ⟨7⟩ ≠
      ValidateResponseError.ValidateResponseFailedToParse :=
  ⟨rfl, by decide⟩

/-- C3 amended: while extracting and decoding the `merkle_proof` field,
a hex-decode failure yields `ValidateResponseFailedToParse`, but a
structural byte-decode failure yields the distinct `BytesRepr` kind carrying
the codec's error. -/
theorem proof_decode_error_kinds (env : QueryEnv) (response : JsonRpc)
    (state_root_hash : Digest) (key : Key) (path : List String)
    (r : Json) (object : List (String × Json)) (pj : Json) (s : String)
    (hr : response.get_result = some r)
    (hobj : r.as_object = some object)
    (hp : objGet object GET_ITEM_RESULT_MERKLE_PROOF = some pj)
    (hs : pj.as_str = some s) :
    (hexDecode s = none →
      validate_query_response env response state_root_hash key path =
        Except.error ValidateResponseError.ValidateResponseFailedToParse) ∧
    (∀ (bytes : List Nat) (e : BytesreprError), hexDecode s = some bytes →
      env.deserializeProofs bytes = Except.error e →
      validate_query_response env response state_root_hash key path =
        Except.error (ValidateResponseError.BytesRepr e)) := by
  constructor
  · intro hhex
    simp only [validate_query_response, hr, hobj, hp, hs, hhex]
  · intro bytes e hhex hdes
    simp only [validate_query_response, hr, hobj, hp, hs, hhex, hdes]

/-- C3 amended witness: a non-hex proof field is rejected as
`ValidateResponseFailedToParse`, and a hex-valid proof field whose bytes
fail structural decoding is rejected as `BytesRepr`. -/
theorem proof_decode_error_kinds_witness :
    validate_query_response queryEnvDecodeFail queryRespBadHex zeroDigest
      zeroKey [] =
      Except.error ValidateResponseError.ValidateResponseFailedToParse ∧
    validate_query_response queryEnvDecodeFail queryRespProofOnly zeroDigest
      zeroKey [] =
      Except.error (ValidateResponseError.BytesRepr ⟨7⟩) :=
  ⟨(proof_decode_error_kinds queryEnvDecodeFail queryRespBadHex zeroDigest
      zeroKey []
      (Json.obj [(GET_ITEM_RESULT_MERKLE_PROOF, Json.str badHexStr)])
      [(GET_ITEM_RESULT_MERKLE_PROOF, Json.str badHexStr)]
      (Json.str badHexStr) badHexStr rfl rfl rfl rfl).1 rfl,
    (proof_decode_error_kinds queryEnvDecodeFail queryRespProofOnly zeroDigest
      zeroKey []
      (Json.obj [(GET_ITEM_RESULT_MERKLE_PROOF, Json.str hexByteStr)])
      [(GET_ITEM_RESULT_MERKLE_PROOF, Json.str hexByteStr)]
      (Json.str hexByteStr) hexByteStr rfl rfl rfl rfl).2 [0] ⟨7⟩ rfl rfl⟩

/-- C8: a response whose `merkle_proof` field hex-decodes and byte-decodes
to an empty proof sequence is rejected by `validate_query_response` (with
the parse-failure kind). -/
theorem empty_proof_chain_rejected (env : QueryEnv) (response : JsonRpc)
    (state_root_hash : Digest) (key : Key) (path : List String)
    (r : Json) (object : List (String × Json)) (pj : Json) (s : String)
    (bytes : List Nat)
    (hr : response.get_result = some r)
    (hobj : r.as_object = some object)
    (hp : objGet object GET_ITEM_RESULT_MERKLE_PROOF = some pj)
    (hs : pj.as_str = some s)
    (hhex : hexDecode s = some bytes)
    (hdes : env.deserializeProofs bytes = Except.ok []) :
    validate_query_response env response state_root_hash key path =
      Except.error ValidateResponseError.ValidateResponseFailedToParse := by
  simp only [validate_query_response, hr, hobj, hp, hs, hhex, hdes,
    List.getLast?_nil]

/-- C8 witness: a response whose proof bytes decode to the empty sequence is
rejected. -/
theorem empty_proof_chain_rejected_witness :
    validate_query_response queryEnvEmptyProofs queryRespProofOnly zeroDigest
      zeroKey [] =
      Except.error ValidateResponseError.ValidateResponseFailedToParse :=
  empty_proof_chain_rejected queryEnvEmptyProofs queryRespProofOnly zeroDigest
    zeroKey []
    (Json.obj [(GET_ITEM_RESULT_MERKLE_PROOF, Json.str hexByteStr)])
    [(GET_ITEM_RESULT_MERKLE_PROOF, Json.str hexByteStr)]
    (Json.str hexByteStr) hexByteStr [0] rfl rfl rfl rfl rfl rfl

/-- C7: once `validate_get_balance_response` has decoded the proof pair, the
`balance_value` field is read as a string and decimal-parsed; a missing
field, a non-string field, and a failing decimal parse each yield the
parse-failure kind `ValidateResponseFailedToParse`, not a validation
error. -/
theorem balance_value_parse_errors (env : BalanceEnv) (response : JsonRpc)
    (state_root_hash : Digest) (key : Key)
    (r : Json) (object : List (String × Json)) (pj : Json) (s : String)
    (bytes : List Nat) (purse_proof balance_proof : TrieMerkleProof)
    (hr : response.get_result = some r)
    (hobj : r.as_object = some object)
    (hp : objGet object GET_ITEM_RESULT_MERKLE_PROOF = some pj)
    (hs : pj.as_str = some s)
    (hhex : hexDecode s = some bytes)
    (hdes : env.deserializeProofPair bytes =
      Except.ok (purse_proof, balance_proof)) :
    (objGet object GET_ITEM_RESULT_BALANCE_VALUE = none →
      validate_get_balance_response env response state_root_hash key =
        Except.error ValidateResponseError.ValidateResponseFailedToParse) ∧
    (∀ bj : Json, objGet object GET_ITEM_RESULT_BALANCE_VALUE = some bj →
      bj.as_str = none →
      validate_get_balance_response env response state_root_hash key =
        Except.error ValidateResponseError.ValidateResponseFailedToParse) ∧
    (∀ (bj : Json) (t : String),
      objGet object GET_ITEM_RESULT_BALANCE_VALUE = some bj →
      bj.as_str = some t → env.fromDecStr t = none →
      validate_get_balance_response env response state_root_hash key =
        Except.error ValidateResponseError.ValidateResponseFailedToParse) := by
  refine ⟨?_, ?_, ?_⟩
  · intro hb
    simp only [validate_get_balance_response, hr, hobj, hp, hs, hhex, hdes, hb]
  · intro bj hb hbs
    simp only [validate_get_balance_response, hr, hobj, hp, hs, hhex, hdes, hb,
      hbs]
  · intro bj t hb hbs hdec
    simp only [validate_get_balance_response, hr, hobj, hp, hs, hhex, hdes, hb,
      hbs, hdec]

/-- C7 witness: with a successfully decoded proof pair, a response with no
`balance_value`, one with a numeric `balance_value`, and one whose string
fails decimal parsing are each rejected with
`ValidateResponseFailedToParse`. -/
theorem balance_value_parse_errors_witness :
    validate_get_balance_response balanceEnvBadDec balanceRespNoValue
      zeroDigest zeroKey =
      Except.error ValidateResponseError.ValidateResponseFailedToParse ∧
    validate_get_balance_response balanceEnvBadDec balanceRespNonString
      zeroDigest zeroKey =
      Except.error ValidateResponseError.ValidateResponseFailedToParse ∧
    validate_get_balance_response balanceEnvBadDec balanceRespBadDecimal
      zeroDigest zeroKey =
      Except.error ValidateResponseError.ValidateResponseFailedToParse :=
  ⟨(balance_value_parse_errors balanceEnvBadDec balanceRespNoValue zeroDigest
      zeroKey
      (Json.obj [(GET_ITEM_RESULT_MERKLE_PROOF, Json.str hexByteStr)])
      [(GET_ITEM_RESULT_MERKLE_PROOF, Json.str hexByteStr)]
      (Json.str hexByteStr) hexByteStr [0] sampleProof sampleProofB
      rfl rfl rfl rfl rfl rfl).1 rfl,
    (balance_value_parse_errors balanceEnvBadDec balanceRespNonString
      zeroDigest zeroKey
      (Json.obj
        [(GET_ITEM_RESULT_MERKLE_PROOF, Json.str hexByteStr),
          (GET_ITEM_RESULT_BALANCE_VALUE, Json.num 3)])
      [(GET_ITEM_RESULT_MERKLE_PROOF, Json.str hexByteStr),
        (GET_ITEM_RESULT_BALANCE_VALUE, Json.num 3)]
      (Json.str hexByteStr) hexByteStr [0] sampleProof sampleProofB
      rfl rfl rfl rfl rfl rfl).2.1 (Json.num 3) rfl rfl,
    (balance_value_parse_errors balanceEnvBadDec balanceRespBadDecimal
      zeroDigest zeroKey
      (Json.obj
        [(GET_ITEM_RESULT_MERKLE_PROOF, Json.str hexByteStr),
          (GET_ITEM_RESULT_BALANCE_VALUE, Json.str badHexStr)])
      [(GET_ITEM_RESULT_MERKLE_PROOF, Json.str hexByteStr),
        (GET_ITEM_RESULT_BALANCE_VALUE, Json.str badHexStr)]
      (Json.str hexByteStr) hexByteStr [0] sampleProof sampleProofB
      rfl rfl rfl rfl rfl rfl).2.2 (Json.str badHexStr) badHexStr rfl rfl rfl⟩

/-- C4: on every input — any response, root hash, key, path, block
identifier, and any behavior of the out-of-file collaborators — each of the
three validators returns a typed result: acceptance or one of the
`ValidateResponseError` kinds. In the embedding all three are total
functions, the counterpart of the source's freedom from panics. -/
theorem validators_return_typed_results (qenv : QueryEnv) (benv : BalanceEnv)
    (blenv : BlockEnv) (response : JsonRpc) (state_root_hash : Digest)
    (key : Key) (path : List String) (ident : Option BlockIdentifier) :
    (validate_query_response qenv response state_root_hash key path =
        Except.ok () ∨
      ∃ e, validate_query_response qenv response state_root_hash key path =
        Except.error e) ∧
    (validate_get_balance_response benv response state_root_hash key =
        Except.ok () ∨
      ∃ e, validate_get_balance_response benv response state_root_hash key =
        Except.error e) ∧
    (validate_get_block_response blenv response ident = Except.ok () ∨
      ∃ e, validate_get_block_response blenv response ident =
        Except.error e) := by
  refine ⟨?_, ?_, ?_⟩
  · cases h : validate_query_response qenv response state_root_hash key path with
    | ok u => exact Or.inl rfl
    | error e => exact Or.inr ⟨e, rfl⟩
  · cases h : validate_get_balance_response benv response state_root_hash key with
    | ok u => exact Or.inl rfl
    | error e => exact Or.inr ⟨e, rfl⟩
  · cases h : validate_get_block_response blenv response ident with
    | ok u => exact Or.inl rfl
    | error e => exact Or.inr ⟨e, rfl⟩

end Casper
